import Mathlib

/-
  Verification of the remote sync writers of sad-go-logger.

  Shallow embedding of logger/remotesync_elk.go (ELKRemoteSyncWriter, the
  streaming transport) and logger/remotesync_newrelic.go
  (NewRelicRemoteSyncWriter, the batch HTTP transport).

  Modelling choices, each tied to the Go source:
  - A Go map[string]interface holding JSON-decoded values is modelled as an
    association list of (String, JsonValue) pairs; Go map iteration order is
    unspecified, so only lookup and the field set are meaningful.  A nil Go
    map is modelled as `none` in `Option LogRecord`.
  - json.Decoder.Decode(&logEntry) on a map target succeeds on a top-level
    JSON object, succeeds on the JSON literal null leaving the map nil, and
    fails on every other top-level value and on input that is not well-formed
    JSON.  A payload is modelled by its byte length together with the first
    JSON value it parses to (none if it does not parse).
  - Nondeterministic environment effects are explicit oracle arguments: the
    clock string ts for time.Now().UTC().Format(time.RFC3339Nano), a per-call
    success flag for each encoder.Encode in one flush pass (enc), the dial
    outcome (dialOk), and the HTTP round-trip outcome (resp).
  - A Go runtime panic (assignment into a nil map) is modelled by the whole
    operation returning Option.none.
-/

/-- A JSON value as decoded by encoding/json into interface.  Numbers decode
to float64 in Go; their numeric value is never inspected by the writers, so
the constructor carries the literal as a string. -/
inductive JsonValue : Type
  | null : JsonValue
  | bool : Bool → JsonValue
  | num : String → JsonValue
  | str : String → JsonValue
  | arr : List JsonValue → JsonValue
  | obj : List (String × JsonValue) → JsonValue

/-- A decoded log record: the contents of a non-nil map[string]interface. -/
abbrev LogRecord := List (String × JsonValue)

/-- Go map assignment m[k] = v: replace the binding of k if present,
otherwise add one. -/
def mapInsert (k : String) (v : JsonValue) : LogRecord → LogRecord
  | [] => [(k, v)]
  | (k1, v1) :: rest =>
      if k1 = k then (k, v) :: rest else (k1, v1) :: mapInsert k v rest

/-- Go map read m[k]. -/
def mapLookup (k : String) : LogRecord → Option JsonValue
  | [] => none
  | (k1, v1) :: rest => if k1 = k then some v1 else mapLookup k rest

/-- One raw byte payload handed to Write: its byte length and the first JSON
value it parses to (none when the bytes are not well-formed JSON). -/
structure Payload where
  len : Nat
  parsed : Option JsonValue

/-- json.NewDecoder(bytes.NewReader(p)).Decode(&logEntry) with logEntry a
map[string]interface: an object yields the map, the literal null succeeds
and leaves the map nil, everything else is a decode error. -/
def decodeLogEntry (p : Payload) : Except String (Option LogRecord) :=
  match p.parsed with
  | none => Except.error "failed to decode log entry: invalid JSON"
  | some (JsonValue.obj fields) => Except.ok (some fields)
  | some JsonValue.null => Except.ok none
  | some _ => Except.error "failed to decode log entry: cannot unmarshal into map"

/-- The mutable state of ELKRemoteSyncWriter that the claims are about:
connected models conn being non-nil, buffer the pending entries, batchSize
the flush threshold.  Entries are non-nil maps: a nil map never reaches the
buffer because the enrichment step panics first. -/
structure ELKRemoteSyncWriter where
  connected : Bool
  buffer : List LogRecord
  batchSize : Nat

/-- The for-loop body of flushBuffer: encode each entry in order; the first
failed Encode stops the pass.  enc i tells whether the i-th Encode call of
this pass succeeds. -/
def flushLoop (enc : Nat → Bool) : Nat → List LogRecord → Bool
  | _, [] => true
  | i, _ :: rest => if enc i then flushLoop enc (i + 1) rest else false

/-- flushBuffer: return at once if conn is nil; otherwise encode the entries
in order; on the first failure set conn to nil and return with the buffer
untouched; if every entry encodes, clear the buffer. -/
def flushBuffer (enc : Nat → Bool) (w : ELKRemoteSyncWriter) : ELKRemoteSyncWriter :=
  if w.connected = false then w
  else if flushLoop enc 0 w.buffer then { w with buffer := [] }
  else { w with connected := false }

/-- The enrichment in Write: logEntry gets @timestamp then @version. -/
def elkEnrich (ts : String) (fields : LogRecord) : LogRecord :=
  mapInsert "@version" (JsonValue.str "1")
    (mapInsert "@timestamp" (JsonValue.str ts) fields)

/-- ELKRemoteSyncWriter.Write: decode the payload (error out on failure),
enrich, append, flush when the buffer has reached batchSize, return the full
input length.  Decoding null yields a nil map and the enrichment assignment
then panics, modelled as Option.none. -/
def ELKRemoteSyncWriter.Write (ts : String) (enc : Nat → Bool)
    (w : ELKRemoteSyncWriter) (p : Payload) :
    Option (ELKRemoteSyncWriter × Nat × Option String) :=
  match decodeLogEntry p with
  | Except.error e => some (w, 0, some e)
  | Except.ok none => none
  | Except.ok (some fields) =>
      let w1 : ELKRemoteSyncWriter := { w with buffer := w.buffer ++ [elkEnrich ts fields] }
      let w2 := if w.batchSize ≤ w1.buffer.length then flushBuffer enc w1 else w1
      some (w2, p.len, none)

/-- ELKRemoteSyncWriter.Sync: flush and always report nil. -/
def ELKRemoteSyncWriter.Sync (enc : Nat → Bool) (w : ELKRemoteSyncWriter) :
    ELKRemoteSyncWriter × Option String :=
  (flushBuffer enc w, none)

/-- ELKRemoteSyncWriter.connect: dial, on success install the fresh
connection, on failure return the error.  The source closes but does not nil
the previous conn on a failed dial, so connected is left as it was. -/
def ELKRemoteSyncWriter.connect (dialOk : Bool) (w : ELKRemoteSyncWriter) :
    ELKRemoteSyncWriter × Option String :=
  if dialOk then ({ w with connected := true }, none)
  else (w, some "dial error")

/-- The mutable state of NewRelicRemoteSyncWriter: the buffer may hold nil
maps (a payload of JSON null decodes to one and is appended unchanged). -/
structure NewRelicRemoteSyncWriter where
  apiKey : String
  endpoint : String
  buffer : List (Option LogRecord)
  batchSize : Nat

/-- Outcome of the HTTP round trip client.Do: a transport error or a
response with a status code. -/
inductive HttpResult : Type
  | netErr : HttpResult
  | status : Nat → HttpResult

/-- The request flush builds: method, URL, headers in order, JSON body. -/
structure HttpRequest where
  method : String
  url : String
  headers : List (String × String)
  body : JsonValue

/-- json.Marshal of one buffered entry: a nil map marshals to null, a map to
an object (key sort order of the Go marshaller abstracted away). -/
def entryToJson : Option LogRecord → JsonValue
  | none => JsonValue.null
  | some fields => JsonValue.obj fields

/-- NewRelicRemoteSyncWriter.flush: no-op on an empty buffer; otherwise POST
the buffer wrapped as an object with key logs, with Content-Type and Api-Key
headers; status 202 clears the buffer, any transport error or other status
returns an error and keeps the buffer.  The third component is the request
that was sent, none when no request was made. -/
def NewRelicRemoteSyncWriter.flush (resp : HttpResult)
    (w : NewRelicRemoteSyncWriter) :
    NewRelicRemoteSyncWriter × Option String × Option HttpRequest :=
  if w.buffer.length = 0 then (w, none, none)
  else
    let req : HttpRequest :=
      { method := "POST", url := w.endpoint,
        headers := [("Content-Type", "application/json"), ("Api-Key", w.apiKey)],
        body := JsonValue.obj [("logs", JsonValue.arr (w.buffer.map entryToJson))] }
    match resp with
    | HttpResult.netErr => (w, some "failed to send logs to New Relic", some req)
    | HttpResult.status code =>
        if code = 202 then ({ w with buffer := [] }, none, some req)
        else (w, some "new relic API returned unexpected status code", some req)

/-- NewRelicRemoteSyncWriter.Write: decode the payload (error out on
failure), append the decoded entry unchanged, and when the buffer has
reached batchSize flush; a failed flush makes Write return 0 and the flush
error, otherwise Write returns the full input length. -/
def NewRelicRemoteSyncWriter.Write (resp : HttpResult)
    (w : NewRelicRemoteSyncWriter) (p : Payload) :
    NewRelicRemoteSyncWriter × Nat × Option String :=
  match decodeLogEntry p with
  | Except.error e => (w, 0, some e)
  | Except.ok entry =>
      let w1 : NewRelicRemoteSyncWriter := { w with buffer := w.buffer ++ [entry] }
      if w.batchSize ≤ w1.buffer.length then
        match w1.flush resp with
        | (w2, some e, _) => (w2, 0, some e)
        | (w2, none, _) => (w2, p.len, none)
      else (w1, p.len, none)

/-- NewRelicRemoteSyncWriter.Sync: flush and return its error. -/
def NewRelicRemoteSyncWriter.Sync (resp : HttpResult)
    (w : NewRelicRemoteSyncWriter) : NewRelicRemoteSyncWriter × Option String :=
  let r := w.flush resp
  (r.1, r.2.1)

/-- Whether a decode attempt ended in an error. -/
def isDecodeError : Except String (Option LogRecord) → Bool
  | Except.error _ => true
  | Except.ok _ => false

/-- A flush failure for the batch HTTP transport: the round trip errored or
the response status was not 202. -/
abbrev FlushFails (resp : HttpResult) : Prop :=
  resp = HttpResult.netErr ∨ ∃ c, resp = HttpResult.status c ∧ c ≠ 202

theorem flushLoop_eq_true (enc : Nat → Bool) (i : Nat) (l : List LogRecord)
    (h : ∀ j, j < l.length → enc (i + j) = true) : flushLoop enc i l = true := by
  induction l generalizing i with
  | nil => rfl
  | cons hd tl ih =>
      have h0 : enc i = true := by simpa using h 0 (Nat.succ_pos _)
      have htl : ∀ j, j < tl.length → enc (i + 1 + j) = true := by
        intro j hj
        have := h (j + 1) (by simpa using Nat.succ_lt_succ hj)
        simpa [Nat.add_assoc, Nat.add_comm 1 j] using this
      simp [flushLoop, h0, ih (i + 1) htl]

theorem mapLookup_mapInsert_self (k : String) (v : JsonValue) (m : LogRecord) :
    mapLookup k (mapInsert k v m) = some v := by
  induction m with
  | nil => simp [mapInsert, mapLookup]
  | cons hd tl ih =>
      obtain ⟨k1, v1⟩ := hd
      by_cases h : k1 = k
      · simp [mapInsert, mapLookup, h]
      · simp [mapInsert, mapLookup, h, ih]

theorem mapLookup_mapInsert_ne (k1 k : String) (v : JsonValue) (m : LogRecord)
    (hne : k1 ≠ k) : mapLookup k1 (mapInsert k v m) = mapLookup k1 m := by
  have hkk1 : ¬ k = k1 := fun h => hne h.symm
  induction m with
  | nil => simp [mapInsert, mapLookup, hkk1]
  | cons hd tl ih =>
      obtain ⟨k2, v2⟩ := hd
      by_cases h : k2 = k
      · subst h
        simp [mapInsert, mapLookup, hkk1]
      · simp [mapInsert, mapLookup, h, ih]

theorem nrFlush_fail_state (resp : HttpResult) (w : NewRelicRemoteSyncWriter)
    (hfail : FlushFails resp) : (w.flush resp).1 = w := by
  unfold NewRelicRemoteSyncWriter.flush
  by_cases hb : w.buffer.length = 0
  · simp [hb]
  · rcases hfail with h | ⟨c, hc, hcne⟩
    · subst h; simp [hb]
    · subst hc; simp [hb, hcne]

theorem nrFlush_fail_err (resp : HttpResult) (w : NewRelicRemoteSyncWriter)
    (hne : w.buffer.length ≠ 0) (hfail : FlushFails resp) :
    ((w.flush resp).2.1).isSome = true := by
  unfold NewRelicRemoteSyncWriter.flush
  rcases hfail with h | ⟨c, hc, hcne⟩
  · subst h; simp [hne]
  · subst hc; simp [hne, hcne]

theorem nrFlush_success_clears (resp : HttpResult) (w : NewRelicRemoteSyncWriter)
    (h : (w.flush resp).2.1 = none) : (w.flush resp).1.buffer = [] := by
  by_cases hb : w.buffer.length = 0
  · have hbe : w.buffer = [] := List.length_eq_zero.mp hb
    simp [NewRelicRemoteSyncWriter.flush, hb, hbe]
  · cases resp with
    | netErr => simp [NewRelicRemoteSyncWriter.flush, hb] at h
    | status c =>
        by_cases hc : c = 202
        · subst hc
          simp [NewRelicRemoteSyncWriter.flush, hb]
        · simp [NewRelicRemoteSyncWriter.flush, hb, hc] at h

theorem elkWrite_eq (ts : String) (enc : Nat → Bool) (w : ELKRemoteSyncWriter)
    (p : Payload) (fields : LogRecord)
    (hdec : decodeLogEntry p = Except.ok (some fields)) :
    w.Write ts enc p =
      some ((if w.batchSize ≤ w.buffer.length + 1
             then flushBuffer enc { w with buffer := w.buffer ++ [elkEnrich ts fields] }
             else { w with buffer := w.buffer ++ [elkEnrich ts fields] }),
            p.len, none) := by
  unfold ELKRemoteSyncWriter.Write
  rw [hdec]
  simp [List.length_append]

theorem nrWrite_eq (resp : HttpResult) (w : NewRelicRemoteSyncWriter)
    (p : Payload) (entry : Option LogRecord)
    (hdec : decodeLogEntry p = Except.ok entry) :
    w.Write resp p =
      if w.batchSize ≤ w.buffer.length + 1 then
        ((({ w with buffer := w.buffer ++ [entry] } : NewRelicRemoteSyncWriter).flush resp).1,
         (if ((({ w with buffer := w.buffer ++ [entry] } : NewRelicRemoteSyncWriter).flush resp).2.1).isSome
          then 0 else p.len),
         (({ w with buffer := w.buffer ++ [entry] } : NewRelicRemoteSyncWriter).flush resp).2.1)
      else ({ w with buffer := w.buffer ++ [entry] }, p.len, none) := by
  unfold NewRelicRemoteSyncWriter.Write
  rw [hdec]
  rcases hf : (({ w with buffer := w.buffer ++ [entry] } : NewRelicRemoteSyncWriter).flush resp) with ⟨w2, e, r⟩
  cases e <;> simp [hf]

/-- C1: a failed flush attempt leaves the buffer exactly as it was — the
streaming transport keeps every record when it is disconnected or when an
encode fails partway, and the batch HTTP transport keeps every record on a
transport error or a non-202 response. -/
theorem C1_failed_flush_preserves_buffer :
    (∀ (enc : Nat → Bool) (w : ELKRemoteSyncWriter),
        w.connected = false ∨ flushLoop enc 0 w.buffer = false →
        (flushBuffer enc w).buffer = w.buffer)
    ∧ (∀ (resp : HttpResult) (w : NewRelicRemoteSyncWriter),
        FlushFails resp →
        (w.flush resp).1.buffer = w.buffer) := by
  constructor
  · intro enc w h
    rcases h with h | h
    · simp [flushBuffer, h]
    · by_cases hc : w.connected = false
      · simp [flushBuffer, hc]
      · simp [flushBuffer, hc, h]
  · intro resp w h
    rw [nrFlush_fail_state resp w h]

/-- C1 witness: concrete failed flushes on both transports leave concrete
buffers intact. -/
theorem C1_witness :
    (flushBuffer (fun _ => false)
        { connected := true, buffer := [[("k", JsonValue.str "v")]], batchSize := 100 }).buffer
      = [[("k", JsonValue.str "v")]]
    ∧ (NewRelicRemoteSyncWriter.flush (HttpResult.status 500)
        { apiKey := "a", endpoint := "u", buffer := [some []], batchSize := 100 }).1.buffer
      = [some []] :=
  ⟨C1_failed_flush_preserves_buffer.1 _ _ (Or.inr rfl),
   C1_failed_flush_preserves_buffer.2 _ _ (Or.inr ⟨500, rfl, by decide⟩)⟩

/-- C5: the streaming transport Sync always reports nil even when the flush
fails, while the batch HTTP transport Sync returns exactly the error of the
flush it ran (nil when the flush succeeded). -/
theorem C5_sync_error_policy :
    (∀ (enc : Nat → Bool) (w : ELKRemoteSyncWriter), (w.Sync enc).2 = none)
    ∧ (∀ (resp : HttpResult) (w : NewRelicRemoteSyncWriter),
        (w.Sync resp).2 = (w.flush resp).2.1) :=
  ⟨fun _ _ => rfl, fun _ _ => rfl⟩

/-- C9: starting from disconnected, connect ends connected exactly when the
dial succeeds, returns an error exactly when the dial fails, and never
touches the buffer; and an encode failure during a flush pass moves a
connected writer to disconnected. -/
theorem C9_connection_state_transitions :
    (∀ (w : ELKRemoteSyncWriter) (dialOk : Bool), w.connected = false →
        ((w.connect dialOk).1.connected = dialOk
          ∧ ((w.connect dialOk).2 = none ↔ dialOk = true)
          ∧ (w.connect dialOk).1.buffer = w.buffer))
    ∧ (∀ (enc : Nat → Bool) (w : ELKRemoteSyncWriter),
        w.connected = true → flushLoop enc 0 w.buffer = false →
        (flushBuffer enc w).connected = false) := by
  constructor
  · intro w dialOk h
    cases dialOk
    · simp [ELKRemoteSyncWriter.connect, h]
    · simp [ELKRemoteSyncWriter.connect]
  · intro enc w hc hl
    simp [flushBuffer, hc, hl]

/-- C9 witness: a concrete successful dial from disconnected, and a concrete
encode failure dropping a connected writer to disconnected. -/
theorem C9_witness :
    (ELKRemoteSyncWriter.connect true
        { connected := false, buffer := [], batchSize := 5 }).1.connected = true
    ∧ (flushBuffer (fun _ => false)
        { connected := true, buffer := [[("a", JsonValue.str "b")]], batchSize := 5 }).connected
      = false :=
  ⟨(C9_connection_state_transitions.1 { connected := false, buffer := [], batchSize := 5 } true rfl).1,
   C9_connection_state_transitions.2 (fun _ => false)
     { connected := true, buffer := [[("a", JsonValue.str "b")]], batchSize := 5 } rfl rfl⟩

/-- C7: the batch HTTP flush is a no-op on an empty buffer (no request, no
error); on a non-empty buffer it sends exactly one POST carrying the buffer
wrapped under the key logs with the Content-Type and Api-Key headers; a
status other than 202 yields an error with the writer unchanged; a 202
response clears the buffer. -/
theorem C7_nr_flush_contract :
    (∀ (resp : HttpResult) (w : NewRelicRemoteSyncWriter),
        w.buffer = [] → w.flush resp = (w, none, none))
    ∧ (∀ (resp : HttpResult) (w : NewRelicRemoteSyncWriter),
        w.buffer ≠ [] →
        (w.flush resp).2.2 = some
          { method := "POST", url := w.endpoint,
            headers := [("Content-Type", "application/json"), ("Api-Key", w.apiKey)],
            body := JsonValue.obj [("logs", JsonValue.arr (w.buffer.map entryToJson))] })
    ∧ (∀ (c : Nat) (w : NewRelicRemoteSyncWriter),
        w.buffer ≠ [] → c ≠ 202 →
        ((w.flush (HttpResult.status c)).2.1).isSome = true
          ∧ (w.flush (HttpResult.status c)).1 = w)
    ∧ (∀ (w : NewRelicRemoteSyncWriter),
        (w.flush (HttpResult.status 202)).1.buffer = []) := by
  refine ⟨?_, ?_, ?_, ?_⟩
  · intro resp w h
    simp [NewRelicRemoteSyncWriter.flush, h]
  · intro resp w h
    have hb : w.buffer.length ≠ 0 := by simpa using h
    cases resp with
    | netErr => simp [NewRelicRemoteSyncWriter.flush, hb]
    | status c =>
        by_cases hc : c = 202 <;>
          simp [NewRelicRemoteSyncWriter.flush, hb, hc]
  · intro c w h hc
    have hb : w.buffer.length ≠ 0 := by simpa using h
    constructor
    · exact nrFlush_fail_err _ w hb (Or.inr ⟨c, rfl, hc⟩)
    · exact nrFlush_fail_state _ w (Or.inr ⟨c, rfl, hc⟩)
  · intro w
    by_cases hb : w.buffer.length = 0
    · simpa [NewRelicRemoteSyncWriter.flush, hb] using List.length_eq_zero.mp hb
    · simp [NewRelicRemoteSyncWriter.flush, hb]

/-- C7 witness: the contract evaluated on concrete writers — an empty
buffer, a failing status 500 flush, and a succeeding 202 flush. -/
theorem C7_witness :
    (NewRelicRemoteSyncWriter.flush HttpResult.netErr
        { apiKey := "a", endpoint := "u", buffer := [], batchSize := 3 })
      = ({ apiKey := "a", endpoint := "u", buffer := [], batchSize := 3 }, none, none)
    ∧ (NewRelicRemoteSyncWriter.flush (HttpResult.status 200)
        { apiKey := "a", endpoint := "u", buffer := [some [("x", JsonValue.str "y")]], batchSize := 3 }).2.2
      = some
          { method := "POST", url := "u",
            headers := [("Content-Type", "application/json"), ("Api-Key", "a")],
            body := JsonValue.obj
              [("logs", JsonValue.arr [JsonValue.obj [("x", JsonValue.str "y")]])] }
    ∧ ((NewRelicRemoteSyncWriter.flush (HttpResult.status 500)
        { apiKey := "a", endpoint := "u", buffer := [some [("x", JsonValue.str "y")]], batchSize := 3 }).2.1).isSome = true
    ∧ (NewRelicRemoteSyncWriter.flush (HttpResult.status 202)
        { apiKey := "a", endpoint := "u", buffer := [some [("x", JsonValue.str "y")]], batchSize := 3 }).1.buffer = [] :=
  ⟨C7_nr_flush_contract.1 HttpResult.netErr _ rfl,
   C7_nr_flush_contract.2.1 (HttpResult.status 200) _ (by simp),
   (C7_nr_flush_contract.2.2.1 500 _ (by simp) (by decide)).1,
   C7_nr_flush_contract.2.2.2 _⟩

/-- C2: when an accepted record brings the buffer to the batch threshold a
flush runs before Write returns — so with a live connection and all encodes
succeeding (streaming) or a 202 response (batch HTTP) the buffer that Write
leaves behind is empty — and, on either transport, any successful flush
leaves a buffer of length 0. -/
theorem C2_threshold_flush_empties_buffer :
    (∀ (ts : String) (enc : Nat → Bool) (w : ELKRemoteSyncWriter) (p : Payload)
        (fields : LogRecord),
        decodeLogEntry p = Except.ok (some fields) →
        w.batchSize ≤ w.buffer.length + 1 →
        w.connected = true →
        (∀ j, j < w.buffer.length + 1 → enc j = true) →
        (w.Write ts enc p).map (fun r => r.1.buffer) = some [])
    ∧ (∀ (enc : Nat → Bool) (w : ELKRemoteSyncWriter),
        w.connected = true → flushLoop enc 0 w.buffer = true →
        (flushBuffer enc w).buffer = [])
    ∧ (∀ (resp : HttpResult) (w : NewRelicRemoteSyncWriter),
        (w.flush resp).2.1 = none → (w.flush resp).1.buffer = [])
    ∧ (∀ (resp : HttpResult) (w : NewRelicRemoteSyncWriter) (p : Payload)
        (entry : Option LogRecord),
        decodeLogEntry p = Except.ok entry →
        w.batchSize ≤ w.buffer.length + 1 →
        (({ w with buffer := w.buffer ++ [entry] } : NewRelicRemoteSyncWriter).flush resp).2.1 = none →
        (w.Write resp p).1.buffer = [] ∧ (w.Write resp p).2.1 = p.len) := by
  refine ⟨?_, ?_, ?_, ?_⟩
  · intro ts enc w p fields hdec hth hc hall
    rw [elkWrite_eq ts enc w p fields hdec]
    have hloop : flushLoop enc 0 (w.buffer ++ [elkEnrich ts fields]) = true := by
      apply flushLoop_eq_true
      intro j hj
      have := hall j (by simpa [List.length_append] using hj)
      simpa using this
    simp [hth, flushBuffer, hc, hloop]
  · intro enc w hc hl
    simp [flushBuffer, hc, hl]
  · intro resp w h
    exact nrFlush_success_clears resp w h
  · intro resp w p entry hdec hth hsucc
    rw [nrWrite_eq resp w p entry hdec]
    have hclr := nrFlush_success_clears resp
      ({ w with buffer := w.buffer ++ [entry] } : NewRelicRemoteSyncWriter) hsucc
    simp [hth, hsucc, hclr]

/-- C2 witness: a batch-size-1 writer on each transport, with a working
backend, ends an over-threshold Write with an empty buffer and the full
payload length reported. -/
theorem C2_witness :
    (ELKRemoteSyncWriter.Write "T" (fun _ => true)
        { connected := true, buffer := [], batchSize := 1 }
        { len := 2, parsed := some (JsonValue.obj []) }).map (fun r => r.1.buffer)
      = some []
    ∧ (NewRelicRemoteSyncWriter.Write (HttpResult.status 202)
        { apiKey := "a", endpoint := "u", buffer := [], batchSize := 1 }
        { len := 2, parsed := some (JsonValue.obj []) }).1.buffer = []
    ∧ (NewRelicRemoteSyncWriter.Write (HttpResult.status 202)
        { apiKey := "a", endpoint := "u", buffer := [], batchSize := 1 }
        { len := 2, parsed := some (JsonValue.obj []) }).2.1 = 2 :=
  ⟨C2_threshold_flush_empties_buffer.1 "T" (fun _ => true) _ _ [] rfl (by decide) rfl
      (fun _ _ => rfl),
   (C2_threshold_flush_empties_buffer.2.2.2 (HttpResult.status 202)
      { apiKey := "a", endpoint := "u", buffer := [], batchSize := 1 }
      { len := 2, parsed := some (JsonValue.obj []) } (some []) rfl
      (by decide) rfl).1,
   (C2_threshold_flush_empties_buffer.2.2.2 (HttpResult.status 202)
      { apiKey := "a", endpoint := "u", buffer := [], batchSize := 1 }
      { len := 2, parsed := some (JsonValue.obj []) } (some []) rfl
      (by decide) rfl).2⟩

/-- C3 counterexample: a batch HTTP writer at the threshold whose triggered
flush gets status 500 — the payload decodes to a record and has length 7,
yet Write does not return 7 (it returns 0), refuting the claim as stated. -/
theorem C3_counterexample :
    decodeLogEntry { len := 7, parsed := some (JsonValue.obj [("m", JsonValue.str "n")]) }
      = Except.ok (some [("m", JsonValue.str "n")])
    ∧ (NewRelicRemoteSyncWriter.Write (HttpResult.status 500)
        { apiKey := "a", endpoint := "u", buffer := [], batchSize := 1 }
        { len := 7, parsed := some (JsonValue.obj [("m", JsonValue.str "n")]) }).2.1 ≠ 7 :=
  ⟨rfl, by decide⟩

/-- C3 amended: for every payload that decodes to a record, when the append
leaves the buffer strictly below the batch threshold, Write on either
transport returns exactly the input byte length and the buffer grows by
exactly one record, appended at the end. -/
theorem C3_write_appends_one_below_threshold :
    (∀ (ts : String) (enc : Nat → Bool) (w : ELKRemoteSyncWriter) (p : Payload)
        (fields : LogRecord),
        decodeLogEntry p = Except.ok (some fields) →
        w.buffer.length + 1 < w.batchSize →
        w.Write ts enc p
          = some ({ w with buffer := w.buffer ++ [elkEnrich ts fields] }, p.len, none))
    ∧ (∀ (resp : HttpResult) (w : NewRelicRemoteSyncWriter) (p : Payload)
        (entry : Option LogRecord),
        decodeLogEntry p = Except.ok entry →
        w.buffer.length + 1 < w.batchSize →
        w.Write resp p = ({ w with buffer := w.buffer ++ [entry] }, p.len, none)) := by
  constructor
  · intro ts enc w p fields hdec hlt
    rw [elkWrite_eq ts enc w p fields hdec]
    rw [if_neg (by omega)]
  · intro resp w p entry hdec hlt
    rw [nrWrite_eq resp w p entry hdec]
    rw [if_neg (by omega)]

/-- C3 witness: concrete below-threshold writes on both transports append
one record and report the full payload length. -/
theorem C3_witness :
    ELKRemoteSyncWriter.Write "T" (fun _ => true)
        { connected := false, buffer := [], batchSize := 5 }
        { len := 3, parsed := some (JsonValue.obj [("a", JsonValue.str "b")]) }
      = some ({ connected := false,
                buffer := [elkEnrich "T" [("a", JsonValue.str "b")]], batchSize := 5 },
              3, none)
    ∧ NewRelicRemoteSyncWriter.Write HttpResult.netErr
        { apiKey := "a", endpoint := "u", buffer := [], batchSize := 5 }
        { len := 3, parsed := some (JsonValue.obj [("a", JsonValue.str "b")]) }
      = ({ apiKey := "a", endpoint := "u",
           buffer := [some [("a", JsonValue.str "b")]], batchSize := 5 }, 3, none) :=
  ⟨C3_write_appends_one_below_threshold.1 "T" (fun _ => true) _ _
      [("a", JsonValue.str "b")] rfl (by decide),
   C3_write_appends_one_below_threshold.2 HttpResult.netErr _ _
      (some [("a", JsonValue.str "b")]) rfl (by decide)⟩

/-- C4 counterexample: the payload null (4 bytes) is well-formed JSON whose
top level is a scalar, not a mapping, yet the batch HTTP Write accepts it —
returning 4 and no error and appending a nil record — and the streaming
Write panics on it (modelled as none) instead of returning 0 and an error. -/
theorem C4_counterexample :
    NewRelicRemoteSyncWriter.Write (HttpResult.status 500)
        { apiKey := "a", endpoint := "u", buffer := [], batchSize := 100 }
        { len := 4, parsed := some JsonValue.null }
      = ({ apiKey := "a", endpoint := "u", buffer := [none], batchSize := 100 }, 4, none)
    ∧ ELKRemoteSyncWriter.Write "T" (fun _ => true)
        { connected := true, buffer := [], batchSize := 100 }
        { len := 4, parsed := some JsonValue.null } = none :=
  ⟨rfl, rfl⟩

/-- C4 amended: every payload whose decode errors — malformed JSON, or a
well-formed top-level non-null scalar (boolean, number, string) or array —
makes Write on either transport return 0 with the decode error and leave
the writer untouched; top-level null is the exception, decoding to a nil
record instead of an error. -/
theorem C4_malformed_write_rejected :
    (∀ (ts : String) (enc : Nat → Bool) (w : ELKRemoteSyncWriter) (p : Payload) (e : String),
        decodeLogEntry p = Except.error e →
        w.Write ts enc p = some (w, 0, some e))
    ∧ (∀ (resp : HttpResult) (w : NewRelicRemoteSyncWriter) (p : Payload) (e : String),
        decodeLogEntry p = Except.error e →
        w.Write resp p = (w, 0, some e))
    ∧ (∀ (n : Nat) (b : Bool) (s : String) (l : List JsonValue),
        isDecodeError (decodeLogEntry { len := n, parsed := some (JsonValue.bool b) }) = true
        ∧ isDecodeError (decodeLogEntry { len := n, parsed := some (JsonValue.num s) }) = true
        ∧ isDecodeError (decodeLogEntry { len := n, parsed := some (JsonValue.str s) }) = true
        ∧ isDecodeError (decodeLogEntry { len := n, parsed := some (JsonValue.arr l) }) = true
        ∧ isDecodeError (decodeLogEntry { len := n, parsed := none }) = true) := by
  refine ⟨?_, ?_, ?_⟩
  · intro ts enc w p e hdec
    unfold ELKRemoteSyncWriter.Write
    rw [hdec]
  · intro resp w p e hdec
    unfold NewRelicRemoteSyncWriter.Write
    rw [hdec]
  · intro n b s l
    exact ⟨rfl, rfl, rfl, rfl, rfl⟩

/-- C4 witness: a concrete top-level string payload is rejected by the
streaming Write and a concrete top-level array payload by the batch HTTP
Write, each returning 0, an error, and an unchanged writer. -/
theorem C4_witness :
    ELKRemoteSyncWriter.Write "T" (fun _ => true)
        { connected := true, buffer := [], batchSize := 100 }
        { len := 8, parsed := some (JsonValue.str "x") }
      = some ({ connected := true, buffer := [], batchSize := 100 }, 0,
              some "failed to decode log entry: cannot unmarshal into map")
    ∧ NewRelicRemoteSyncWriter.Write HttpResult.netErr
        { apiKey := "a", endpoint := "u", buffer := [], batchSize := 100 }
        { len := 8, parsed := some (JsonValue.arr []) }
      = ({ apiKey := "a", endpoint := "u", buffer := [], batchSize := 100 }, 0,
         some "failed to decode log entry: cannot unmarshal into map") :=
  ⟨C4_malformed_write_rejected.1 "T" (fun _ => true) _ _ _ rfl,
   C4_malformed_write_rejected.2.1 HttpResult.netErr _ _ _ rfl⟩

/-- C6 counterexample: a batch HTTP Write whose threshold-triggered flush
hits a transport error returns that flush error to the producer, refuting
the claim that only the batch HTTP Sync surfaces flush failures. -/
theorem C6_counterexample :
    (NewRelicRemoteSyncWriter.Write HttpResult.netErr
        { apiKey := "a", endpoint := "u",
          buffer := [some [("q", JsonValue.str "r")]], batchSize := 2 }
        { len := 5, parsed := some (JsonValue.obj [("x", JsonValue.str "y")]) }).2.2
      = some "failed to send logs to New Relic" := rfl

/-- C6 amended: the streaming transport never surfaces flush failures — its
Write reports the full length and no error whenever decoding succeeded, and
its Sync always returns nil — while the batch HTTP transport surfaces flush
errors both through Sync and through a Write whose threshold-triggered flush
fails, the latter returning the flush error verbatim. -/
theorem C6_flush_error_surfacing :
    (∀ (ts : String) (enc : Nat → Bool) (w : ELKRemoteSyncWriter) (p : Payload)
        (fields : LogRecord),
        decodeLogEntry p = Except.ok (some fields) →
        (w.Write ts enc p).map (fun r => (r.2.1, r.2.2)) = some (p.len, none))
    ∧ (∀ (enc : Nat → Bool) (w : ELKRemoteSyncWriter), (w.Sync enc).2 = none)
    ∧ (∀ (resp : HttpResult) (w : NewRelicRemoteSyncWriter) (p : Payload)
        (entry : Option LogRecord),
        decodeLogEntry p = Except.ok entry →
        w.batchSize ≤ w.buffer.length + 1 →
        (w.Write resp p).2.2
          = (({ w with buffer := w.buffer ++ [entry] } : NewRelicRemoteSyncWriter).flush resp).2.1) := by
  refine ⟨?_, ?_, ?_⟩
  · intro ts enc w p fields hdec
    rw [elkWrite_eq ts enc w p fields hdec]
    by_cases hth : w.batchSize ≤ w.buffer.length + 1 <;> simp [hth]
  · intro enc w
    rfl
  · intro resp w p entry hdec hth
    rw [nrWrite_eq resp w p entry hdec]
    simp [hth]

/-- C6 witness: a concrete streaming Write over the threshold with a failing
encoder still reports (length, nil), and a concrete batch HTTP Write over
the threshold returns exactly the error of the flush it triggered. -/
theorem C6_witness :
    (ELKRemoteSyncWriter.Write "T" (fun _ => false)
        { connected := true, buffer := [], batchSize := 1 }
        { len := 6, parsed := some (JsonValue.obj []) }).map (fun r => (r.2.1, r.2.2))
      = some (6, none)
    ∧ (NewRelicRemoteSyncWriter.Write HttpResult.netErr
        { apiKey := "a", endpoint := "u", buffer := [], batchSize := 1 }
        { len := 6, parsed := some (JsonValue.obj []) }).2.2
      = (NewRelicRemoteSyncWriter.flush HttpResult.netErr
          { apiKey := "a", endpoint := "u", buffer := [some []], batchSize := 1 }).2.1 :=
  ⟨C6_flush_error_surfacing.1 "T" (fun _ => false) _ _ [] rfl,
   C6_flush_error_surfacing.2.2 HttpResult.netErr
      { apiKey := "a", endpoint := "u", buffer := [], batchSize := 1 } _ (some []) rfl
      (by decide)⟩

/-- C8: the streaming enrichment sets exactly the two reserved fields —
looking up @timestamp yields the clock string, @version yields the constant
1, and every other key reads as in the original record — and a
below-threshold Write appends exactly the enriched record (streaming) or
exactly the decoded record with no fields added (batch HTTP). -/
theorem C8_streaming_enrichment_only :
    (∀ (ts : String) (fields : LogRecord),
        mapLookup "@timestamp" (elkEnrich ts fields) = some (JsonValue.str ts)
        ∧ mapLookup "@version" (elkEnrich ts fields) = some (JsonValue.str "1")
        ∧ ∀ k, k ≠ "@timestamp" → k ≠ "@version" →
            mapLookup k (elkEnrich ts fields) = mapLookup k fields)
    ∧ (∀ (ts : String) (enc : Nat → Bool) (w : ELKRemoteSyncWriter) (p : Payload)
        (fields : LogRecord),
        decodeLogEntry p = Except.ok (some fields) →
        w.buffer.length + 1 < w.batchSize →
        (w.Write ts enc p).map (fun r => r.1.buffer)
          = some (w.buffer ++ [elkEnrich ts fields]))
    ∧ (∀ (resp : HttpResult) (w : NewRelicRemoteSyncWriter) (p : Payload)
        (entry : Option LogRecord),
        decodeLogEntry p = Except.ok entry →
        w.buffer.length + 1 < w.batchSize →
        (w.Write resp p).1.buffer = w.buffer ++ [entry]) := by
  refine ⟨?_, ?_, ?_⟩
  · intro ts fields
    refine ⟨?_, ?_, ?_⟩
    · rw [elkEnrich, mapLookup_mapInsert_ne _ _ _ _ (by decide), mapLookup_mapInsert_self]
    · rw [elkEnrich, mapLookup_mapInsert_self]
    · intro k h1 h2
      rw [elkEnrich, mapLookup_mapInsert_ne _ _ _ _ h2, mapLookup_mapInsert_ne _ _ _ _ h1]
  · intro ts enc w p fields hdec hlt
    rw [elkWrite_eq ts enc w p fields hdec]
    rw [if_neg (by omega)]
    rfl
  · intro resp w p entry hdec hlt
    rw [nrWrite_eq resp w p entry hdec]
    rw [if_neg (by omega)]

/-- C8 witness: on a concrete one-field record the enrichment adds the two
reserved fields and preserves the original field, and concrete
below-threshold writes buffer the enriched record (streaming) and the bare
record (batch HTTP). -/
theorem C8_witness :
    mapLookup "@timestamp" (elkEnrich "T" [("msg", JsonValue.str "hi")])
      = some (JsonValue.str "T")
    ∧ mapLookup "@version" (elkEnrich "T" [("msg", JsonValue.str "hi")])
      = some (JsonValue.str "1")
    ∧ mapLookup "msg" (elkEnrich "T" [("msg", JsonValue.str "hi")])
      = mapLookup "msg" [("msg", JsonValue.str "hi")]
    ∧ (ELKRemoteSyncWriter.Write "T" (fun _ => true)
        { connected := false, buffer := [], batchSize := 9 }
        { len := 2, parsed := some (JsonValue.obj [("msg", JsonValue.str "hi")]) }).map
          (fun r => r.1.buffer)
      = some [elkEnrich "T" [("msg", JsonValue.str "hi")]]
    ∧ (NewRelicRemoteSyncWriter.Write HttpResult.netErr
        { apiKey := "a", endpoint := "u", buffer := [], batchSize := 9 }
        { len := 2, parsed := some (JsonValue.obj [("msg", JsonValue.str "hi")]) }).1.buffer
      = [some [("msg", JsonValue.str "hi")]] :=
  ⟨(C8_streaming_enrichment_only.1 "T" [("msg", JsonValue.str "hi")]).1,
   (C8_streaming_enrichment_only.1 "T" [("msg", JsonValue.str "hi")]).2.1,
   (C8_streaming_enrichment_only.1 "T" [("msg", JsonValue.str "hi")]).2.2 "msg"
      (by decide) (by decide),
   C8_streaming_enrichment_only.2.1 "T" (fun _ => true) _ _
      [("msg", JsonValue.str "hi")] rfl (by decide),
   C8_streaming_enrichment_only.2.2 HttpResult.netErr _ _
      (some [("msg", JsonValue.str "hi")]) rfl (by decide)⟩

/-- C10: on the batch HTTP transport, a decoded record whose append reaches
the batch threshold while the triggered flush fails leaves Write returning 0
bytes and an error even though the record was appended and remains in the
buffer. -/
theorem C10_nr_write_threshold_flush_failure :
    ∀ (resp : HttpResult) (w : NewRelicRemoteSyncWriter) (p : Payload)
      (entry : Option LogRecord),
      decodeLogEntry p = Except.ok entry →
      w.batchSize ≤ w.buffer.length + 1 →
      FlushFails resp →
      (w.Write resp p).1.buffer = w.buffer ++ [entry]
      ∧ (w.Write resp p).2.1 = 0
      ∧ ((w.Write resp p).2.2).isSome = true := by
  intro resp w p entry hdec hth hfail
  have hst := nrFlush_fail_state resp
    ({ w with buffer := w.buffer ++ [entry] } : NewRelicRemoteSyncWriter) hfail
  have herr := nrFlush_fail_err resp
    ({ w with buffer := w.buffer ++ [entry] } : NewRelicRemoteSyncWriter) (by simp) hfail
  rw [nrWrite_eq resp w p entry hdec]
  refine ⟨?_, ?_, ?_⟩ <;> simp [hth, hst, herr]

/-- C10 witness: a concrete batch-size-1 writer whose flush hits a transport
error — Write reports 0 and an error while the record sits in the buffer. -/
theorem C10_witness :
    (NewRelicRemoteSyncWriter.Write HttpResult.netErr
        { apiKey := "a", endpoint := "u", buffer := [], batchSize := 1 }
        { len := 9, parsed := some (JsonValue.obj [("m", JsonValue.str "n")]) }).1.buffer
      = [some [("m", JsonValue.str "n")]]
    ∧ (NewRelicRemoteSyncWriter.Write HttpResult.netErr
        { apiKey := "a", endpoint := "u", buffer := [], batchSize := 1 }
        { len := 9, parsed := some (JsonValue.obj [("m", JsonValue.str "n")]) }).2.1 = 0
    ∧ ((NewRelicRemoteSyncWriter.Write HttpResult.netErr
        { apiKey := "a", endpoint := "u", buffer := [], batchSize := 1 }
        { len := 9, parsed := some (JsonValue.obj [("m", JsonValue.str "n")]) }).2.2).isSome
      = true :=
  C10_nr_write_threshold_flush_failure HttpResult.netErr _ _
    (some [("m", JsonValue.str "n")]) rfl (by decide) (Or.inl rfl)
